import Mathlib

/-!
Verification development for the Solaris rooftop-solar web application.

The Python modules under `app/` are shallowly embedded: floats become exact
rationals (`ℚ`), Python `round(x, ndigits)` becomes banker's rounding on `ℚ`,
`Optional` values become `Option`, dict-shaped records become structures, and
the session-driven wizard becomes an explicit state-transition function.
-/

namespace Solaris

/-! ### Python `round` (banker's rounding) on exact rationals -/

/-- Python `round` to an integer: round half to even. -/
def pyRoundInt (q : ℚ) : ℤ :=
  let f := ⌊q⌋
  let frac := q - f
  if frac < 1/2 then f
  else if 1/2 < frac then f + 1
  else if f % 2 = 0 then f else f + 1

/-- Python `round(x, 1)`. -/
def pyRound1 (q : ℚ) : ℚ := (pyRoundInt (q * 10) : ℚ) / 10

/-- Python `round(x, 2)`. -/
def pyRound2 (q : ℚ) : ℚ := (pyRoundInt (q * 100) : ℚ) / 100

/-! ### ASCII text helpers (Python `str.lower` / `str.upper` / `in` / `split`)

The repository's string data is ASCII apart from symbols (`₹`, `–`) that
Python's `lower`/`upper` leave unchanged, so the ASCII case maps are faithful
here.  Substring tests (`w in text`) are `List.IsInfix` on character lists. -/

def lowerChar (c : Char) : Char :=
  if 'A' ≤ c ∧ c ≤ 'Z' then Char.ofNat (c.toNat + 32) else c

def upperChar (c : Char) : Char :=
  if 'a' ≤ c ∧ c ≤ 'z' then Char.ofNat (c.toNat - 32) else c

def lowerStr (s : String) : List Char := s.toList.map lowerChar

def upperStr (s : String) : List Char := s.toList.map upperChar

/-- Python `needle in haystack` on strings (substring containment). -/
def strIn (needle : String) (haystack : List Char) : Prop :=
  needle.toList <:+: haystack

instance (needle : String) (haystack : List Char) : Decidable (strIn needle haystack) :=
  List.decidableInfix _ _

namespace MlScoring

/-! ### `app/utils/ml_scoring.py` -/

/-- The keys of the `scheme` dict that `calculate_subsidy_match_score` reads
(each via `scheme.get` with a default, hence the `Option` fields). -/
structure Scheme where
  match_score : Option ℚ
  states : List String
  coverage : Option String
  consumer_segments : List String

/-- Python truthiness of an `Optional[float]`: `None` and `0.0` are falsy. -/
def OptTruthy (o : Option ℚ) : Prop := o.getD 0 ≠ 0

instance (o : Option ℚ) : Decidable (OptTruthy o) := by
  unfold OptTruthy
  infer_instance

/-- `calculate_subsidy_match_score` (ml_scoring.py lines 11–99).
`base_score` is computed from `scheme['match_score']` but never added to
`score`, exactly as in the source. -/
def calculate_subsidy_match_score (scheme : Scheme) (user_system_size_kw : ℚ)
    (user_annual_consumption_kwh : Option ℚ)
    (user_state user_consumer_segment : String)
    (gross_cost_inr subsidy_amount_inr ease_of_claim : ℚ) : ℚ :=
  let _base_score := scheme.match_score.getD 7.5 * 10
  let score : ℚ := 0
  let score := if gross_cost_inr > 0 then
      score + min (subsidy_amount_inr / gross_cost_inr) 1 * 30
    else score
  let scheme_states := scheme.states
  let scheme_coverage := scheme.coverage.getD "national"
  let score :=
    if scheme_coverage = "state" ∧ lowerStr user_state ∈ scheme_states.map lowerStr then
      score + 15
    else if scheme_coverage = "national" then score + 10
    else score
  let score :=
    if lowerStr user_consumer_segment ∈ scheme.consumer_segments.map lowerStr then
      score + 10
    else score
  let score :=
    if 1 ≤ user_system_size_kw ∧ user_system_size_kw ≤ 10 then
      score + max 0 (20 * (1 - |user_system_size_kw - 5| / 5))
    else score + 10
  let score := score + ease_of_claim * 10
  let score :=
    if gross_cost_inr > 0 ∧ OptTruthy user_annual_consumption_kwh then
      let tariff_rate : ℚ := 6
      let annual_savings := user_annual_consumption_kwh.getD 0 * 0.8 * tariff_rate
      let net_cost := gross_cost_inr - subsidy_amount_inr
      if annual_savings > 0 then
        score + max 0 (15 * (1 - (net_cost / annual_savings - 5) / 15))
      else score
    else score
  pyRound1 (min 100 (max 0 score))

/-- `calculate_vendor_score` (ml_scoring.py lines 102–164). -/
def calculate_vendor_score (rating : ℚ) (mnre_verified : Bool)
    (sentiment_score price_fairness completion_rate warranty_years : ℚ)
    (years_experience : ℤ) : ℚ :=
  let sentiment_component := sentiment_score * 40
  let mnre_component : ℚ := if mnre_verified then 20 else 0
  let price_component := price_fairness * 15
  let completion_component := completion_rate * 15
  let warranty_component := min 10 (max 2 (warranty_years * 2))
  let total_score := sentiment_component + mnre_component + price_component +
    completion_component + warranty_component
  let experience_bonus := min 5 ((years_experience : ℚ) / 2)
  let total_score := total_score + experience_bonus
  let rating_component := rating / 5 * 10
  let total_score := total_score * 0.9 + rating_component
  min 100 (max 0 (pyRound1 total_score))

/-- Result record of `calculate_financial_predictions`. -/
structure FinancialPredictions where
  monthly_savings_inr : ℚ
  annual_savings_inr : ℚ
  payback_period_years : Option ℚ
  co2_avoided_kg_per_year : ℚ
  net_cost_inr : ℚ
  self_consumed_kwh : ℚ
deriving DecidableEq

/-- `calculate_financial_predictions` (ml_scoring.py lines 167–230).
`float('inf')` appears only as the sentinel that the final dict turns into
`None`, so the payback entry is modelled directly as an `Option`. -/
def calculate_financial_predictions
    (system_size_kw annual_generation_kwh tariff_rate_inr_per_kwh
      gross_cost_inr subsidy_amount_inr self_consumption_ratio : ℚ) :
    FinancialPredictions :=
  let _ := system_size_kw
  let net_cost_inr := gross_cost_inr - subsidy_amount_inr
  let self_consumed_kwh := annual_generation_kwh * self_consumption_ratio
  let annual_savings_inr := self_consumed_kwh * tariff_rate_inr_per_kwh
  let monthly_savings_inr := annual_savings_inr / 12
  let payback_period_years : Option ℚ :=
    if annual_savings_inr > 0 then some (net_cost_inr / annual_savings_inr) else none
  let co2_avoided_kg_per_year := annual_generation_kwh * 0.82
  { monthly_savings_inr := pyRound2 monthly_savings_inr
    annual_savings_inr := pyRound2 annual_savings_inr
    payback_period_years := payback_period_years.map pyRound2
    co2_avoided_kg_per_year := pyRound2 co2_avoided_kg_per_year
    net_cost_inr := pyRound2 net_cost_inr
    self_consumed_kwh := pyRound2 self_consumed_kwh }

/-- Positive keyword list of `analyze_sentiment_simple`. -/
def positive_words : List String :=
  ["excellent", "great", "good", "amazing", "wonderful", "perfect",
   "satisfied", "happy", "recommend", "professional", "quality",
   "reliable", "trustworthy", "efficient", "fast", "quick"]

/-- Negative keyword list of `analyze_sentiment_simple`. -/
def negative_words : List String :=
  ["bad", "poor", "terrible", "awful", "disappointed", "worst",
   "slow", "delayed", "broken", "failed", "complaint", "issue",
   "problem", "unreliable", "expensive", "overpriced"]

/-- Number of positive keywords contained in the lowercased text. -/
def positive_count (text_lower : List Char) : ℕ :=
  (positive_words.filter (fun w => decide (strIn w text_lower))).length

/-- Number of negative keywords contained in the lowercased text. -/
def negative_count (text_lower : List Char) : ℕ :=
  (negative_words.filter (fun w => decide (strIn w text_lower))).length

/-- `analyze_sentiment_simple` (ml_scoring.py lines 233–270). -/
def analyze_sentiment_simple (text : String) : ℚ :=
  if text = "" then 0.5
  else
    let text_lower := lowerStr text
    let p := positive_count text_lower
    let n := negative_count text_lower
    if p + n = 0 then 0.5
    else min 1 (max 0 ((p : ℚ) / ((p : ℚ) + (n : ℚ)) * 1.2))

end MlScoring

namespace Vendors

/-! ### `app/utils/vendors.py`

`price_range_inr`, `contact` and `website` are display-only strings never
read by the scoring pipeline and are omitted from the record. -/

structure Vendor where
  id : String
  name : String
  rating : ℚ
  base_price_per_kw_inr : ℚ
  locations : List String
  years_experience : ℤ
  highlights : List String
deriving DecidableEq

def sunrise_energy : Vendor :=
  { id := "sunrise-energy", name := "Sunrise Energy Solutions", rating := 4.6,
    base_price_per_kw_inr := 68000, locations := ["Delhi", "Noida", "Gurugram"],
    years_experience := 9,
    highlights := ["MNRE empanelled", "Net-meter support", "24x7 monitoring"] }

def surya_grid : Vendor :=
  { id := "surya-grid", name := "SuryaGrid EPC", rating := 4.3,
    base_price_per_kw_inr := 61000, locations := ["Mumbai", "Pune", "Nashik"],
    years_experience := 12,
    highlights := ["Hybrid inverter experts", "O&M packages", "Battery integration"] }

def greenbeam : Vendor :=
  { id := "greenbeam", name := "GreenBeam Solar", rating := 4.8,
    base_price_per_kw_inr := 67000, locations := ["Ahmedabad", "Vadodara", "Surat"],
    years_experience := 7,
    highlights := ["5-year O&M included", "Real-time app", "EMI options"] }

def agripower : Vendor :=
  { id := "agripower", name := "AgriPower Pumps", rating := 4.2,
    base_price_per_kw_inr := 64000, locations := ["Jaipur", "Udaipur", "Indore"],
    years_experience := 11,
    highlights := ["PM-KUSUM specialists", "RBI/NABARD loan support", "On-field service"] }

def urban_spark : Vendor :=
  { id := "urban-spark", name := "UrbanSpark Rooftech", rating := 4.5,
    base_price_per_kw_inr := 59000, locations := ["Bengaluru", "Mysuru", "Hyderabad"],
    years_experience := 8,
    highlights := ["Remote diagnostics", "Smart EV-ready", "Rapid installation"] }

def solar_vendors : List Vendor :=
  [sunrise_energy, surya_grid, greenbeam, agripower, urban_spark]

/-- `any("MNRE" in h.upper() or "empanelled" in h.lower() for h in highlights)`. -/
def mnre_verified (v : Vendor) : Bool :=
  v.highlights.any (fun h =>
    decide (strIn "MNRE" (upperStr h)) || decide (strIn "empanelled" (lowerStr h)))

/-- Python `" ".join(strings)` as a character list. -/
def joinSpace : List String → List Char
  | [] => []
  | [s] => s.toList
  | s :: rest => s.toList ++ ' ' :: joinSpace rest

/-- Python `str.split()` on the space-separated highlight strings. -/
def splitWsAux : List Char → List Char → List (List Char)
  | [], acc => if acc.isEmpty then [] else [acc.reverse]
  | c :: cs, acc =>
      if c = ' ' then
        if acc.isEmpty then splitWsAux cs [] else acc.reverse :: splitWsAux cs []
      else splitWsAux cs (c :: acc)

def splitWs (s : String) : List (List Char) := splitWsAux s.toList []

/-- Python `str.isdigit()` (true when non-empty and all digits). -/
def isDigitTok (tok : List Char) : Bool :=
  !tok.isEmpty && tok.all (fun c => c.isDigit)

/-- Value of an all-digit token (what `float(tok)` yields on it). -/
def natOfDigits (l : List Char) : ℕ :=
  l.foldl (fun n c => 10 * n + (c.toNat - '0'.toNat)) 0

/-- The warranty-extraction loop of `calculate_vendor_score` (vendors.py
lines 96–103): scan the highlights; inside a highlight containing "year" and
a digit, take the first whitespace token that is all digits and stop; the
`IndexError` of `[...][0]` on no such token is swallowed by `except: pass`
and the loop continues. -/
def extract_warranty : List String → ℚ → ℚ
  | [], w => w
  | h :: rest, w =>
      if strIn "year" (lowerStr h) ∧ (h.toList.any fun c => c.isDigit) = true then
        (((splitWs h).filter isDigitTok).head?).elim (extract_warranty rest w)
          (fun tok => (natOfDigits tok : ℚ))
      else extract_warranty rest w

def warranty_years (v : Vendor) : ℚ := extract_warranty v.highlights 5

/-- Python `max(...)`/`min(...)` over a non-empty numeric sequence (the
default is never taken on the concrete vendor table). -/
def pyMax (l : List ℚ) (default : ℚ) : ℚ :=
  match l with
  | [] => default
  | x :: xs => xs.foldl max x

def pyMin (l : List ℚ) (default : ℚ) : ℚ :=
  match l with
  | [] => default
  | x :: xs => xs.foldl min x

/-- `calculate_vendor_score` (vendors.py lines 71–116): feature extraction
feeding the ml_scoring weighted formula. -/
def calculate_vendor_score (vendor : Vendor) : ℚ :=
  let rating := vendor.rating
  let mnre := mnre_verified vendor
  let review_text : String := ⟨joinSpace vendor.highlights⟩
  let sentiment_score := MlScoring.analyze_sentiment_simple review_text
  let max_price := pyMax (solar_vendors.map (fun v => v.base_price_per_kw_inr)) 80000
  let min_price := pyMin (solar_vendors.map (fun v => v.base_price_per_kw_inr)) 50000
  let base_price := vendor.base_price_per_kw_inr
  let price_range := if max_price > min_price then max_price - min_price else 1
  let price_fairness :=
    if price_range > 0 then 1 - (base_price - min_price) / price_range else 0.5
  let completion_rate := min 1 (rating / 5)
  let warranty := warranty_years vendor
  MlScoring.calculate_vendor_score rating mnre sentiment_score price_fairness
    completion_rate warranty vendor.years_experience

/-- Entry of the list built by `get_recommended_vendors`: the vendor copy
plus the `recommendation_score` and `is_recommended` keys (the display-only
`recommendation_reasons` key is omitted). -/
structure ScoredVendor where
  vendor : Vendor
  recommendation_score : ℚ
  is_recommended : Bool
deriving DecidableEq

/-- Descending-by-score comparison used by
`sort(key=lambda v: v["recommendation_score"], reverse=True)`. -/
def scoreGe (a b : Vendor × ℚ) : Prop := b.2 ≤ a.2

instance : DecidableRel scoreGe :=
  fun a b => (inferInstance : Decidable (b.2 ≤ a.2))

instance : IsTotal (Vendor × ℚ) scoreGe :=
  ⟨fun a b => le_total b.2 a.2⟩

instance : IsTrans (Vendor × ℚ) scoreGe :=
  ⟨fun _ _ _ h1 h2 => le_trans h2 h1⟩

def vendors_with_scores : List (Vendor × ℚ) :=
  solar_vendors.map (fun v => (v, calculate_vendor_score v))

/-- Python's `list.sort` is a stable sort; insertion sort with the non-strict
descending comparison reproduces it. -/
def sorted_vendors : List (Vendor × ℚ) :=
  vendors_with_scores.insertionSort scoreGe

/-- `top_score = vendors_with_scores[0]["recommendation_score"] if ... else 0`
(after the sort). -/
def top_score : ℚ :=
  match sorted_vendors with
  | [] => 0
  | p :: _ => p.2

/-- `get_recommended_vendors` (vendors.py lines 160–181); its
`recommended_kw` parameter is never read in the body. -/
def get_recommended_vendors : List ScoredVendor :=
  sorted_vendors.map (fun p =>
    { vendor := p.1, recommendation_score := p.2,
      is_recommended := decide (p.2 ≥ top_score * 0.85) })

end Vendors

namespace Energy

/-! ### `app/utils/energy.py` (the daily-aggregation loop) -/

/-- The fields of an `EnergyLog` row read by the aggregation loop; `date` is
the already-formatted `strftime("%Y-%m-%d")` key. -/
structure EnergyLog where
  date : String
  entry_type : Option String
  kwh : Option ℚ
  revenue : Option ℚ

/-- One day's bucket of the `daily_totals` defaultdict. -/
structure DayTotals where
  generation : ℚ
  consumption : ℚ
  «export» : ℚ
  revenue : ℚ
deriving DecidableEq

def DayTotals.zero : DayTotals := ⟨0, 0, 0, 0⟩

/-- One iteration of the aggregation loop in `build_energy_context`
(energy.py lines 25–37): `kwh_value = float(log.kwh or 0)` is added to the
bucket chosen by `(log.entry_type or "").lower()`, and the revenue is added
when present. -/
def applyLog (t : DayTotals) (log : EnergyLog) : DayTotals :=
  let kwh_value := log.kwh.getD 0
  let entry_type := lowerStr (log.entry_type.getD "")
  let t1 :=
    if entry_type = "generation".toList then
      { t with generation := t.generation + kwh_value }
    else if entry_type = "export".toList then
      { t with «export» := t.«export» + kwh_value }
    else
      { t with consumption := t.consumption + kwh_value }
  match log.revenue with
  | some r => { t1 with revenue := t1.revenue + r }
  | none => t1

/-- The `defaultdict` update `daily_totals[date_key]`: apply the log to the
existing bucket for its date, or to a fresh zero bucket. -/
def updateDaily : List (String × DayTotals) → EnergyLog → List (String × DayTotals)
  | [], log => [(log.date, applyLog DayTotals.zero log)]
  | (k, t) :: rest, log =>
      if k = log.date then (k, applyLog t log) :: rest
      else (k, t) :: updateDaily rest log

/-- The whole loop over the user's logs. -/
def daily_totals (logs : List EnergyLog) : List (String × DayTotals) :=
  logs.foldl updateDaily []

end Energy

namespace Utils

/-! ### `app/utils/__init__.py` (absent from `src/`; modelled from the spec) -/

/-- Modelled from the spec: `estimate_system_size_kw` lives in
`app/utils/__init__.py`, which is not under `src/` (only its callers in
`app/subsidy/routes.py` are).  Spec §4.2: a deterministic formula combining
roof-area-constrained capacity and consumption-driven capacity — the minimum
of area-based sizing (`roof_area / 10` kW) and demand-based sizing
(`annual_consumption_kwh / 1100` kW, matching the 1100 kWh-per-kW annual
yield used by the subsidy routes) — clamped above to a 10 kW residential cap.
Callers pass `None` for an absent input. -/
def estimate_system_size_kw (roof_area annual_consumption_kwh : Option ℚ) : ℚ :=
  match roof_area, annual_consumption_kwh with
  | some a, some c => min (min (a / 10) (c / 1100)) 10
  | some a, none => min (a / 10) 10
  | none, some c => min (c / 1100) 10
  | none, none => 0

/-- The `Result` record returned by `estimate_subsidy` (spec §3). -/
structure SubsidyResult where
  gross_cost : ℚ
  central : ℚ
  state_subsidy : ℚ
  net_cost : ℚ

/-- Modelled from the spec: `estimate_subsidy` lives in
`app/utils/__init__.py`, which is not under `src/`.  Spec §4.3: tiered
subsidy-slab rules (a policy table keyed by kW bands, here the PM Surya
Ghar-style slabs ₹30k/kW up to 2 kW, ₹18k for the third kW, capped at ₹78k,
plus a capped state top-up) applied to a base ₹/kW installation cost;
`net_cost = gross_cost − (central + state_subsidy)`, floored at 0. -/
def estimate_subsidy (kw : ℚ) : SubsidyResult :=
  let base_cost_per_kw : ℚ := 60000
  let gross_cost := kw * base_cost_per_kw
  let central :=
    if kw ≤ 2 then kw * 30000
    else if kw ≤ 3 then 60000 + (kw - 2) * 18000
    else 78000
  let state_subsidy := min (kw * 5000) 15000
  let net_cost := max 0 (gross_cost - (central + state_subsidy))
  { gross_cost := gross_cost, central := central,
    state_subsidy := state_subsidy, net_cost := net_cost }

end Utils

namespace Subsidy

/-! ### `app/subsidy/routes.py` — the wizard session, submissions, ai-chat

The `subsidy_journey` session dict is modelled as a record of optional keys
(`none` = key absent), the routes as a transition function from application
state (journey + stored submissions + the user's `journey_completed` flag)
to a new state plus an HTTP-level response.  Numeric/date bookkeeping that
no claim touches (the user's cached estimate fields, template context) is
not carried. -/

/-- The `subsidy_journey` session dict: a key is `none` while the wizard has
not stored it. -/
structure Journey where
  roof_area : Option ℚ
  monthly_bill : Option ℚ
  provider : Option String
  state : Option String
  consumer_segment : Option String
  grid_connection : Option String
  roof_type : Option String
deriving DecidableEq

/-- The empty session dict created by `_ensure_session` (and left by
`_reset_journey`). -/
def Journey.empty : Journey := ⟨none, none, none, none, none, none, none⟩

/-- The columns of one `SubsidySubmission` row written on the Results page
(routes.py lines 278–289); `roof_area`/`monthly_bill` go through Python
truthiness (`float(x) if journey.get(k) else None`). -/
structure Submission where
  user_id : ℕ
  roof_area : Option ℚ
  monthly_bill : Option ℚ
  provider : Option String
  state : Option String
  consumer_segment : Option String
  grid_connection : Option String
  roof_type : Option String
deriving DecidableEq

/-- `float(journey.get(k, 0)) if journey.get(k) else None`. -/
def truthyNum (o : Option ℚ) : Option ℚ :=
  match o with
  | some v => if v = 0 then none else some v
  | none => none

/-- The snapshot row inserted by the Results handler. -/
def snapshot (uid : ℕ) (j : Journey) : Submission :=
  { user_id := uid,
    roof_area := truthyNum j.roof_area,
    monthly_bill := truthyNum j.monthly_bill,
    provider := j.provider,
    state := j.state,
    consumer_segment := j.consumer_segment,
    grid_connection := j.grid_connection,
    roof_type := j.roof_type }

/-- Application state carried across requests: the session journey, the
durable `SubsidySubmission` table (append order preserved), and the user's
`journey_completed` flag. -/
structure AppState where
  journey : Journey
  submissions : List Submission
  journey_completed : Bool
deriving DecidableEq

/-- Redirect targets (`url_for` endpoints) used by the subsidy blueprint. -/
inductive Route
  | eligibility
  | site
  | results
deriving DecidableEq

/-- HTTP-level outcome of a request: a redirect (with the flash message and
category, when one is queued) or a rendered template. -/
inductive Response
  | redirect (target : Route) (flashMsg : Option (String × String))
  | render (template : String)
deriving DecidableEq

/-- The requests the subsidy blueprint serves, with validated form data for
the POSTs (an invalid form re-renders and changes no state, so it is the
identity on `AppState` and not modelled further). -/
inductive Event
  | step1Get
  | step1Post (roof_area monthly_bill : ℚ) (provider : String)
  | step2Post (state consumer_segment grid_connection roof_type : String)
  | resultsGet
  | vendorsGet
  | restartPost
  | viewGet
deriving DecidableEq

/-- `required_keys.issubset(journey.keys())` for the Results page
(routes.py lines 111–119). -/
def requiredResultsKeys (j : Journey) : Bool :=
  j.roof_area.isSome && j.state.isSome && j.consumer_segment.isSome &&
  j.grid_connection.isSome && j.provider.isSome && j.monthly_bill.isSome

/-- The subsidy blueprint as a transition function (routes.py lines 48–387,
527–571): each arm mirrors the corresponding handler's session reads/writes,
database writes and redirect/render outcome. -/
def step (uid : ℕ) (s : AppState) (e : Event) : AppState × Response :=
  match e with
  | .step1Get =>
      ({ s with journey := Journey.empty }, .render "subsidy/step1_numbers.html")
  | .step1Post ra mb pv =>
      ({ s with journey :=
          { Journey.empty with
            roof_area := some ra, monthly_bill := some mb, provider := some pv } },
       .redirect .site none)
  | .step2Post st seg gc rt =>
      if s.journey.roof_area.isSome then
        ({ s with journey :=
            { s.journey with
              state := some st, consumer_segment := some seg,
              grid_connection := some gc, roof_type := some rt } },
         .redirect .results none)
      else
        (s, .redirect .eligibility (some ("Start with your rooftop numbers first.", "error")))
  | .resultsGet =>
      if requiredResultsKeys s.journey then
        ({ s with
            submissions := s.submissions ++ [snapshot uid s.journey],
            journey_completed := true },
         .render "subsidy/step4_results.html")
      else
        (s, .redirect .eligibility
          (some ("Complete the subsidy journey before viewing matches.", "error")))
  | .vendorsGet => (s, .render "subsidy/vendors.html")
  | .restartPost =>
      ({ s with journey := Journey.empty, journey_completed := false },
       .redirect .eligibility none)
  | .viewGet =>
      if s.journey = Journey.empty then
        (s, .redirect .eligibility
          (some ("No subsidy form data found. Please complete the subsidy journey first.", "error")))
      else
        (s, .render "subsidy/view_data.html")

/-- Body of an `ai-chat` JSON response. -/
inductive AiBody
  | response (text : String)
  | error (msg : String)
deriving DecidableEq

/-- Outcome of the outbound Gemini call (`model.generate_content` plus
`response.text`): the reply text, or the exception message caught by the
generic handler. -/
def UpstreamResult := Except String String

/-- The `ai_chat` handler (routes.py lines 390–524) as a function of the
configuration (library importable?, configured API key) and the request
(the JSON body's `message`, and the upstream outcome): HTTP status code
plus JSON body.  The prompt composition (`step`, `form_data`, session
context) never affects the status or body shape and is not carried. -/
def ai_chat (importOk : Bool) (apiKey : Option String) (message : String)
    (upstream : Except String String) : ℕ × AiBody :=
  if !importOk then
    (500, .error "Google Generative AI library not installed. Run: pip install google-generativeai")
  else if apiKey.getD "" = "" then
    (500, .error "Gemini API key not configured. Please set GEMINI_API_KEY environment variable.")
  else if message = "" then
    (400, .error "Message is required")
  else
    match upstream with
    | .ok text => (200, .response text)
    | .error e => (500, .error ("AI service error: " ++ e))

namespace Demo

/-! Concrete wizard trace: Step 1, Step 2, then two consecutive GETs of the
Results page without restarting the journey. -/

def s0 : AppState := { journey := Journey.empty, submissions := [], journey_completed := false }

def s1 : AppState := (step 7 s0 (.step1Post 30 2000 "bses_delhi")).1

def s2 : AppState := (step 7 s1 (.step2Post "delhi" "residential" "grid" "rcc")).1

def s3 : AppState := (step 7 s2 .resultsGet).1

def s4 : AppState := (step 7 s3 .resultsGet).1

end Demo

end Subsidy

/-! ### Rounding lemmas -/

theorem pyRoundInt_nonneg {q : ℚ} (h : 0 ≤ q) : 0 ≤ pyRoundInt q := by
  unfold pyRoundInt
  dsimp only
  have hf : (0:ℤ) ≤ ⌊q⌋ := Int.floor_nonneg.mpr h
  split_ifs <;> omega

theorem pyRoundInt_le {q : ℚ} {n : ℤ} (h : q ≤ (n : ℚ)) : pyRoundInt q ≤ n := by
  unfold pyRoundInt
  have hf : ⌊q⌋ ≤ n := by
    have := Int.floor_le_floor h
    simpa using this
  have hfl : (⌊q⌋ : ℚ) ≤ q := Int.floor_le q
  have hlt : (1/2 : ℚ) ≤ q - (⌊q⌋:ℚ) → ⌊q⌋ + 1 ≤ n := by
    intro hh
    rcases eq_or_lt_of_le hf with heq | hlt
    · exfalso
      have hq : q - (⌊q⌋:ℚ) ≤ 0 := by
        have : q ≤ (⌊q⌋ : ℚ) := by rw [heq]; exact_mod_cast h
        linarith
      linarith
    · omega
  dsimp only
  split_ifs with h1 h2 h3
  · exact hf
  · exact hlt (le_of_lt h2)
  · exact hf
  · exact hlt (le_of_not_lt h1)

theorem pyRoundInt_intCast (n : ℤ) : pyRoundInt (n : ℚ) = n := by
  unfold pyRoundInt
  simp

theorem pyRound1_nonneg {q : ℚ} (h : 0 ≤ q) : 0 ≤ pyRound1 q := by
  unfold pyRound1
  have : (0:ℤ) ≤ pyRoundInt (q * 10) := pyRoundInt_nonneg (by positivity)
  have hc : (0:ℚ) ≤ (pyRoundInt (q * 10) : ℚ) := by exact_mod_cast this
  positivity

theorem pyRound1_le_100 {q : ℚ} (h : q ≤ 100) : pyRound1 q ≤ 100 := by
  unfold pyRound1
  have h10 : q * 10 ≤ ((1000 : ℤ) : ℚ) := by push_cast; linarith
  have := pyRoundInt_le h10
  have hc : (pyRoundInt (q * 10) : ℚ) ≤ 1000 := by exact_mod_cast this
  linarith

theorem pyRound2_nonneg {q : ℚ} (h : 0 ≤ q) : 0 ≤ pyRound2 q := by
  unfold pyRound2
  have : (0:ℤ) ≤ pyRoundInt (q * 100) := pyRoundInt_nonneg (by positivity)
  have hc : (0:ℚ) ≤ (pyRoundInt (q * 100) : ℚ) := by exact_mod_cast this
  positivity

theorem pyRound2_intCast (n : ℤ) : pyRound2 (n : ℚ) = (n : ℚ) := by
  unfold pyRound2
  have : ((n : ℚ) * 100) = ((n * 100 : ℤ) : ℚ) := by push_cast; ring
  rw [this, pyRoundInt_intCast]
  push_cast
  ring

theorem pyRound1_eq_of_mul_ten {q : ℚ} {n : ℤ} (h : q * 10 = (n : ℚ)) :
    pyRound1 q = (n : ℚ) / 10 := by
  unfold pyRound1
  rw [h, pyRoundInt_intCast]

/-! ### Shared range helpers for the scoring functions -/

theorem clamp_round_range (s : ℚ) :
    0 ≤ pyRound1 (min 100 (max 0 s)) ∧ pyRound1 (min 100 (max 0 s)) ≤ 100 :=
  ⟨pyRound1_nonneg (le_min (by norm_num) (le_max_left 0 s)),
   pyRound1_le_100 (min_le_left _ _)⟩

theorem vendor_score_range (rating : ℚ) (mnre : Bool)
    (snt pf cr w : ℚ) (y : ℤ) :
    0 ≤ MlScoring.calculate_vendor_score rating mnre snt pf cr w y ∧
    MlScoring.calculate_vendor_score rating mnre snt pf cr w y ≤ 100 := by
  unfold MlScoring.calculate_vendor_score
  dsimp only
  exact ⟨le_min (by norm_num) (le_max_left 0 _), min_le_left _ _⟩

theorem sentiment_range (text : String) :
    0 ≤ MlScoring.analyze_sentiment_simple text ∧
    MlScoring.analyze_sentiment_simple text ≤ 1 := by
  unfold MlScoring.analyze_sentiment_simple
  dsimp only
  split_ifs
  · norm_num
  · norm_num
  · exact ⟨le_min (by norm_num) (le_max_left 0 _), min_le_left _ _⟩

/-- Reusable helper: the payback entry of `calculate_financial_predictions`
as a closed-form conditional. -/
theorem payback_spec (s g t gc sub r : ℚ) :
    (MlScoring.calculate_financial_predictions s g t gc sub r).payback_period_years =
      if g * r * t > 0 then some (pyRound2 ((gc - sub) / (g * r * t))) else none := by
  unfold MlScoring.calculate_financial_predictions
  dsimp only
  split_ifs with h
  · rfl
  · rfl

/-! ### Claim theorems -/

/-- C1: every scoring function's output lies in its documented closed range
for arbitrary inputs (including zero gross cost and zero consumption):
`calculate_subsidy_match_score` and `calculate_vendor_score` in [0, 100],
`analyze_sentiment_simple` in [0, 1]. -/
theorem C1_scoring_ranges :
    (∀ scheme size cons st seg gross sub ease,
        0 ≤ MlScoring.calculate_subsidy_match_score scheme size cons st seg gross sub ease ∧
        MlScoring.calculate_subsidy_match_score scheme size cons st seg gross sub ease ≤ 100) ∧
    (∀ rating mnre snt pf cr w y,
        0 ≤ MlScoring.calculate_vendor_score rating mnre snt pf cr w y ∧
        MlScoring.calculate_vendor_score rating mnre snt pf cr w y ≤ 100) ∧
    (∀ text,
        0 ≤ MlScoring.analyze_sentiment_simple text ∧
        MlScoring.analyze_sentiment_simple text ≤ 1) := by
  refine ⟨?_, fun rating mnre snt pf cr w y => vendor_score_range rating mnre snt pf cr w y,
    fun text => sentiment_range text⟩
  intro scheme size cons st seg gross sub ease
  unfold MlScoring.calculate_subsidy_match_score
  dsimp only
  exact clamp_round_range _

/-- C2 counterexample: with a negative tariff (an input the claim quantifies
over), the computed annual savings is −1 ≠ 0 yet `payback_period_years` is
still `None`, so "None exactly when annual savings is zero" fails as stated
over every input. -/
theorem C2_payback_counterexample :
    (MlScoring.calculate_financial_predictions 1 1 (-1) 0 0 1).payback_period_years = none ∧
    (1 : ℚ) * 1 * (-1) ≠ 0 := by
  constructor
  · rw [payback_spec, if_neg (by norm_num)]
  · norm_num

/-- C2 (amended): `payback_period_years` is `None` exactly when the computed
annual savings `annual_generation_kwh * self_consumption_ratio *
tariff_rate_inr_per_kwh` is ≤ 0 (and a finite value otherwise); on
non-negative inputs — the valid domain — this coincides with the claim's
"exactly when the annual savings is zero". -/
theorem C2_payback_none_iff (s g t gc sub r : ℚ) :
    ((MlScoring.calculate_financial_predictions s g t gc sub r).payback_period_years = none ↔
      g * r * t ≤ 0) ∧
    (0 ≤ g → 0 ≤ r → 0 ≤ t →
      ((MlScoring.calculate_financial_predictions s g t gc sub r).payback_period_years = none ↔
        g * r * t = 0)) := by
  rw [payback_spec]
  constructor
  · by_cases h : g * r * t > 0
    · simp only [if_pos h]
      constructor
      · intro hc
        exact absurd hc (by simp)
      · intro hle
        exact absurd h (not_lt.mpr hle)
    · simp only [if_neg h]
      exact ⟨fun _ => not_lt.mp h, fun _ => trivial⟩
  · intro hg hr ht
    by_cases h : g * r * t > 0
    · simp only [if_pos h]
      constructor
      · intro hc
        exact absurd hc (by simp)
      · intro heq
        exact absurd heq (ne_of_gt h)
    · simp only [if_neg h]
      have hnn : 0 ≤ g * r * t := by positivity
      exact ⟨fun _ => le_antisymm (not_lt.mp h) hnn, fun _ => trivial⟩

/-- C2 witness: concrete positive-savings instantiation of the amended
equivalence. -/
theorem C2_payback_none_iff_witness :
    ((MlScoring.calculate_financial_predictions 2 1000 6 60000 30000 (4/5)).payback_period_years =
      none ↔ (1000 : ℚ) * (4/5) * 6 = 0) :=
  (C2_payback_none_iff 2 1000 6 60000 30000 (4/5)).2 (by norm_num) (by norm_num) (by norm_num)

/-- C3 counterexample: with the visibly non-negative inputs
(generation 0, tariff 0, gross cost 100, subsidy 200),
`calculate_financial_predictions` reports a negative money value
(`net_cost_inr = −100`), so "all money values produced are non-negative,
net cost floored at 0" fails as stated for the prediction function. -/
theorem C3_net_cost_counterexample :
    (MlScoring.calculate_financial_predictions 1 0 0 100 200 (4/5)).net_cost_inr = -100 := by
  unfold MlScoring.calculate_financial_predictions
  dsimp only
  have h : (100 : ℚ) - 200 = ((-100 : ℤ) : ℚ) := by norm_num
  rw [h, pyRound2_intCast]
  norm_num

/-- C3 (amended): with non-negative inputs, the savings, CO₂ and kWh outputs
of `calculate_financial_predictions` are non-negative, and its `net_cost_inr`
is non-negative whenever the subsidy does not exceed the gross cost — but it
is `gross − subsidy` without flooring, so it goes negative when the subsidy
exceeds the gross cost.  The net cost reported to the user comes from
`estimate_subsidy`, whose `net_cost` equals
`max 0 (gross_cost − (central + state_subsidy))` and whose money outputs are
all non-negative for non-negative kW. -/
theorem C3_estimation_nonneg (s g t gc sub r kw : ℚ)
    (hg : 0 ≤ g) (ht : 0 ≤ t) (hr : 0 ≤ r) (_hsub : 0 ≤ sub) (hkw : 0 ≤ kw) :
    (0 ≤ (MlScoring.calculate_financial_predictions s g t gc sub r).monthly_savings_inr ∧
     0 ≤ (MlScoring.calculate_financial_predictions s g t gc sub r).annual_savings_inr ∧
     0 ≤ (MlScoring.calculate_financial_predictions s g t gc sub r).co2_avoided_kg_per_year ∧
     0 ≤ (MlScoring.calculate_financial_predictions s g t gc sub r).self_consumed_kwh) ∧
    ((Utils.estimate_subsidy kw).net_cost =
        max 0 ((Utils.estimate_subsidy kw).gross_cost -
          ((Utils.estimate_subsidy kw).central + (Utils.estimate_subsidy kw).state_subsidy)) ∧
     0 ≤ (Utils.estimate_subsidy kw).gross_cost ∧
     0 ≤ (Utils.estimate_subsidy kw).central ∧
     0 ≤ (Utils.estimate_subsidy kw).state_subsidy ∧
     0 ≤ (Utils.estimate_subsidy kw).net_cost) ∧
    (sub ≤ gc → 0 ≤ (MlScoring.calculate_financial_predictions s g t gc sub r).net_cost_inr) := by
  unfold MlScoring.calculate_financial_predictions Utils.estimate_subsidy
  dsimp only
  refine ⟨⟨?_, ?_, ?_, ?_⟩, ⟨rfl, ?_, ?_, ?_, le_max_left _ _⟩, ?_⟩
  · exact pyRound2_nonneg (by positivity)
  · exact pyRound2_nonneg (by positivity)
  · exact pyRound2_nonneg (by positivity)
  · exact pyRound2_nonneg (by positivity)
  · positivity
  · split_ifs with h1 h2
    · positivity
    · nlinarith [not_le.mp h1]
    · norm_num
  · exact le_min (by positivity) (by norm_num)
  · intro hle
    exact pyRound2_nonneg (by linarith)

/-- C3 witness: concrete instantiation of the amended non-negativity facts. -/
theorem C3_estimation_nonneg_witness :
    0 ≤ (MlScoring.calculate_financial_predictions 3 3300 6 180000 78000 (4/5)).annual_savings_inr ∧
    0 ≤ (Utils.estimate_subsidy 3).net_cost ∧
    0 ≤ (MlScoring.calculate_financial_predictions 3 3300 6 180000 78000 (4/5)).net_cost_inr :=
  ⟨(C3_estimation_nonneg 3 3300 6 180000 78000 (4/5) 3 (by norm_num) (by norm_num)
      (by norm_num) (by norm_num) (by norm_num)).1.2.1,
   (C3_estimation_nonneg 3 3300 6 180000 78000 (4/5) 3 (by norm_num) (by norm_num)
      (by norm_num) (by norm_num) (by norm_num)).2.1.2.2.2.2,
   (C3_estimation_nonneg 3 3300 6 180000 78000 (4/5) 3 (by norm_num) (by norm_num)
      (by norm_num) (by norm_num) (by norm_num)).2.2 (by norm_num)⟩

/-- C5: the (spec-modelled) sizing estimator is strictly positive whenever at
least one input is provided (each provided input positive, its valid domain),
and is monotonically non-decreasing in each input holding the other fixed. -/
theorem C5_sizing_positive_monotone :
    (∀ a c, 0 < a → 0 < c → 0 < Utils.estimate_system_size_kw (some a) (some c)) ∧
    (∀ a, 0 < a → 0 < Utils.estimate_system_size_kw (some a) none) ∧
    (∀ c, 0 < c → 0 < Utils.estimate_system_size_kw none (some c)) ∧
    (∀ a a' co, a ≤ a' →
      Utils.estimate_system_size_kw (some a) co ≤ Utils.estimate_system_size_kw (some a') co) ∧
    (∀ c c' ao, c ≤ c' →
      Utils.estimate_system_size_kw ao (some c) ≤ Utils.estimate_system_size_kw ao (some c')) := by
  refine ⟨?_, ?_, ?_, ?_, ?_⟩
  · intro a c ha hc
    unfold Utils.estimate_system_size_kw
    refine lt_min (lt_min (by positivity) (by positivity)) (by norm_num)
  · intro a ha
    unfold Utils.estimate_system_size_kw
    exact lt_min (by positivity) (by norm_num)
  · intro c hc
    unfold Utils.estimate_system_size_kw
    exact lt_min (by positivity) (by norm_num)
  · intro a a' co h
    cases co with
    | none =>
        unfold Utils.estimate_system_size_kw
        exact min_le_min (by linarith) le_rfl
    | some c =>
        unfold Utils.estimate_system_size_kw
        exact min_le_min (min_le_min (by linarith) le_rfl) le_rfl
  · intro c c' ao h
    cases ao with
    | none =>
        unfold Utils.estimate_system_size_kw
        exact min_le_min (by linarith) le_rfl
    | some a =>
        unfold Utils.estimate_system_size_kw
        exact min_le_min (min_le_min le_rfl (by linarith)) le_rfl

/-- C5 witness: concrete positivity and monotonicity instances. -/
theorem C5_sizing_witness :
    0 < Utils.estimate_system_size_kw (some 30) (some 3300) ∧
    Utils.estimate_system_size_kw (some 20) none ≤
      Utils.estimate_system_size_kw (some 30) none :=
  ⟨C5_sizing_positive_monotone.1 30 3300 (by norm_num) (by norm_num),
   C5_sizing_positive_monotone.2.2.2.1 20 30 none (by norm_num)⟩

/-- C6: a Results GET on a session missing any required Step1/Step2 key
(roof_area, state, consumer_segment, grid_connection, provider,
monthly_bill) leaves the state unchanged and redirects to Step 1 with an
error flash; likewise a Step 2 request without Step 1's roof_area. -/
theorem C6_wizard_gating (uid : ℕ) (s : Subsidy.AppState) (st seg gc rt : String) :
    ((s.journey.roof_area = none ∨ s.journey.state = none ∨
      s.journey.consumer_segment = none ∨ s.journey.grid_connection = none ∨
      s.journey.provider = none ∨ s.journey.monthly_bill = none) →
      Subsidy.step uid s .resultsGet =
        (s, .redirect .eligibility
          (some ("Complete the subsidy journey before viewing matches.", "error")))) ∧
    (s.journey.roof_area = none →
      Subsidy.step uid s (.step2Post st seg gc rt) =
        (s, .redirect .eligibility
          (some ("Start with your rooftop numbers first.", "error")))) := by
  constructor
  · intro h
    have hreq : Subsidy.requiredResultsKeys s.journey = false := by
      rcases h with h | h | h | h | h | h <;>
        simp [Subsidy.requiredResultsKeys, h]
    simp [Subsidy.step, hreq]
  · intro h
    simp [Subsidy.step, h]

/-- C6 witness: an empty session requesting Results, and a Step 2 post on an
empty session. -/
theorem C6_wizard_gating_witness :
    Subsidy.step 1 Subsidy.Demo.s0 .resultsGet =
      (Subsidy.Demo.s0, .redirect .eligibility
        (some ("Complete the subsidy journey before viewing matches.", "error"))) ∧
    Subsidy.step 1 Subsidy.Demo.s0 (.step2Post "delhi" "residential" "grid" "rcc") =
      (Subsidy.Demo.s0, .redirect .eligibility
        (some ("Start with your rooftop numbers first.", "error"))) :=
  ⟨(C6_wizard_gating 1 Subsidy.Demo.s0 "delhi" "residential" "grid" "rcc").1 (Or.inl rfl),
   (C6_wizard_gating 1 Subsidy.Demo.s0 "delhi" "residential" "grid" "rcc").2 rfl⟩

/-- C7 counterexample: one completed journey (Step 1, Step 2, Results) whose
Results page is requested a second time without any journey change produces
a second `SubsidySubmission` row, so "exactly one durable record per
completed journey" fails as stated. -/
theorem C7_one_per_journey_counterexample :
    Subsidy.Demo.s4.journey = Subsidy.Demo.s3.journey ∧
    Subsidy.Demo.s3.submissions.length = 1 ∧
    Subsidy.Demo.s4.submissions.length = 2 := by
  refine ⟨?_, ?_, ?_⟩ <;>
    norm_num [Subsidy.Demo.s4, Subsidy.Demo.s3, Subsidy.Demo.s2, Subsidy.Demo.s1,
      Subsidy.Demo.s0, Subsidy.step, Subsidy.requiredResultsKeys, Subsidy.Journey.empty]

/-- C7 (amended): the submissions table is append-only — every request
preserves the existing rows as a prefix (no row is ever mutated or deleted)
— and each Results GET with a complete journey appends exactly one snapshot
row; but the journey is not cleared on completion, so each further Results
view of the same journey appends one more row (one row per Results view,
not one per journey). -/
theorem C7_submissions_append_only (uid : ℕ) (s : Subsidy.AppState) (e : Subsidy.Event) :
    (s.submissions <+: (Subsidy.step uid s e).1.submissions) ∧
    (Subsidy.requiredResultsKeys s.journey = true →
      (Subsidy.step uid s .resultsGet).1.submissions =
        s.submissions ++ [Subsidy.snapshot uid s.journey]) := by
  constructor
  · cases e with
    | step1Get => simp [Subsidy.step]
    | step1Post ra mb pv => simp [Subsidy.step]
    | step2Post st seg gc rt =>
        by_cases h : s.journey.roof_area.isSome <;> simp [Subsidy.step, h]
    | resultsGet =>
        by_cases h : Subsidy.requiredResultsKeys s.journey <;>
          simp [Subsidy.step, h, List.prefix_append]
    | vendorsGet => simp [Subsidy.step]
    | restartPost => simp [Subsidy.step]
    | viewGet =>
        by_cases h : s.journey = Subsidy.Journey.empty <;> simp [Subsidy.step, h]
  · intro h
    simp [Subsidy.step, h]

/-- C7 witness: the first Results GET of the demo trace appends exactly the
snapshot of the completed journey. -/
theorem C7_submissions_append_only_witness :
    (Subsidy.step 7 Subsidy.Demo.s2 .resultsGet).1.submissions =
      Subsidy.Demo.s2.submissions ++ [Subsidy.snapshot 7 Subsidy.Demo.s2.journey] :=
  (C7_submissions_append_only 7 Subsidy.Demo.s2 .resultsGet).2 (by
    norm_num [Subsidy.Demo.s2, Subsidy.Demo.s1, Subsidy.Demo.s0, Subsidy.step,
      Subsidy.requiredResultsKeys, Subsidy.Journey.empty])

/-- C8 counterexample: a POST whose JSON body lacks a message, hitting a
server with no configured API key, returns 500 (the config check precedes
the message check), not the claimed 400. -/
theorem C8_ai_chat_counterexample :
    (Subsidy.ai_chat true none "" (Except.error "boom")).1 = 500 ∧
    (500 : ℕ) ≠ 400 := by
  constructor
  · simp [Subsidy.ai_chat]
  · decide

/-- C8 (amended): an import failure returns 500 with an error body
regardless of the request; with the library importable, a missing/empty API
key returns 500 with an error body regardless of the message; with good
configuration, an empty/missing message returns 400 with an error body, a
successful upstream call returns 200 with `{response}`, and an upstream
exception returns 500 with an error body. -/
theorem C8_ai_chat_statuses (apiKey : Option String) (msg t e : String)
    (up : Except String String) :
    (Subsidy.ai_chat false apiKey msg up =
      (500, .error "Google Generative AI library not installed. Run: pip install google-generativeai")) ∧
    (apiKey.getD "" = "" →
      Subsidy.ai_chat true apiKey msg up =
        (500, .error "Gemini API key not configured. Please set GEMINI_API_KEY environment variable.")) ∧
    (apiKey.getD "" ≠ "" → msg = "" →
      Subsidy.ai_chat true apiKey msg up = (400, .error "Message is required")) ∧
    (apiKey.getD "" ≠ "" → msg ≠ "" →
      Subsidy.ai_chat true apiKey msg (.ok t) = (200, .response t)) ∧
    (apiKey.getD "" ≠ "" → msg ≠ "" →
      Subsidy.ai_chat true apiKey msg (.error e) =
        (500, .error ("AI service error: " ++ e))) := by
  refine ⟨?_, ?_, ?_, ?_, ?_⟩
  · simp [Subsidy.ai_chat]
  · intro h
    simp [Subsidy.ai_chat, h]
  · intro h hm
    simp [Subsidy.ai_chat, h, hm]
  · intro h hm
    simp [Subsidy.ai_chat, h, hm]
  · intro h hm
    simp [Subsidy.ai_chat, h, hm]

/-- C8 witness: concrete requests through each amended arm. -/
theorem C8_ai_chat_statuses_witness :
    Subsidy.ai_chat true (some "k") "" (.ok "hi") = (400, .error "Message is required") ∧
    Subsidy.ai_chat true (some "k") "help" (.ok "hi") = (200, .response "hi") ∧
    Subsidy.ai_chat true (some "k") "help" (.error "timeout") =
      (500, .error ("AI service error: " ++ "timeout")) :=
  ⟨(C8_ai_chat_statuses (some "k") "" "hi" "x" (.ok "hi")).2.2.1 (by decide) rfl,
   (C8_ai_chat_statuses (some "k") "help" "hi" "x" (.ok "hi")).2.2.2.1 (by decide) (by decide),
   (C8_ai_chat_statuses (some "k") "help" "hi" "timeout" (.ok "hi")).2.2.2.2 (by decide) (by decide)⟩

/-- C9: in the daily aggregation of `build_energy_context`, a log's kwh is
added to the generation bucket exactly when its entry type lower-cases to
"generation", to the export bucket exactly for "export", and to the
consumption bucket in every other case (including "other", unknown strings
and a missing entry type), each time leaving the other two kwh buckets
unchanged. -/
theorem C9_energy_entry_classification (t : Energy.DayTotals) (log : Energy.EnergyLog) :
    (lowerStr (log.entry_type.getD "") = "generation".toList →
      (Energy.applyLog t log).generation = t.generation + log.kwh.getD 0 ∧
      (Energy.applyLog t log).consumption = t.consumption ∧
      (Energy.applyLog t log).«export» = t.«export») ∧
    (lowerStr (log.entry_type.getD "") = "export".toList →
      (Energy.applyLog t log).«export» = t.«export» + log.kwh.getD 0 ∧
      (Energy.applyLog t log).generation = t.generation ∧
      (Energy.applyLog t log).consumption = t.consumption) ∧
    (lowerStr (log.entry_type.getD "") ≠ "generation".toList →
      lowerStr (log.entry_type.getD "") ≠ "export".toList →
      (Energy.applyLog t log).consumption = t.consumption + log.kwh.getD 0 ∧
      (Energy.applyLog t log).generation = t.generation ∧
      (Energy.applyLog t log).«export» = t.«export») := by
  refine ⟨?_, ?_, ?_⟩
  · intro h
    unfold Energy.applyLog
    dsimp only
    rw [if_pos h]
    cases hrev : log.revenue <;> simp
  · intro h
    have hne : lowerStr (log.entry_type.getD "") ≠ "generation".toList := by
      rw [h]; decide
    unfold Energy.applyLog
    dsimp only
    rw [if_neg hne, if_pos h]
    cases hrev : log.revenue <;> simp
  · intro h1 h2
    unfold Energy.applyLog
    dsimp only
    rw [if_neg h1, if_neg h2]
    cases hrev : log.revenue <;> simp

/-- C9 witness: a "Generation" log feeds the generation bucket; an "other"
log and a missing entry type both feed the consumption bucket. -/
theorem C9_energy_entry_classification_witness :
    (Energy.applyLog ⟨1, 2, 3, 4⟩ ⟨"2024-01-01", some "Generation", some 5, none⟩).generation =
      (⟨1, 2, 3, 4⟩ : Energy.DayTotals).generation + (some (5:ℚ)).getD 0 ∧
    (Energy.applyLog ⟨1, 2, 3, 4⟩ ⟨"2024-01-01", some "other", some 5, none⟩).consumption =
      (⟨1, 2, 3, 4⟩ : Energy.DayTotals).consumption + (some (5:ℚ)).getD 0 ∧
    (Energy.applyLog ⟨1, 2, 3, 4⟩ ⟨"2024-01-01", none, some 5, none⟩).consumption =
      (⟨1, 2, 3, 4⟩ : Energy.DayTotals).consumption + (some (5:ℚ)).getD 0 :=
  ⟨((C9_energy_entry_classification ⟨1, 2, 3, 4⟩
      ⟨"2024-01-01", some "Generation", some 5, none⟩).1 (by decide)).1,
   ((C9_energy_entry_classification ⟨1, 2, 3, 4⟩
      ⟨"2024-01-01", some "other", some 5, none⟩).2.2 (by decide) (by decide)).1,
   ((C9_energy_entry_classification ⟨1, 2, 3, 4⟩
      ⟨"2024-01-01", none, some 5, none⟩).2.2 (by decide) (by decide)).1⟩

/-- Helper: the value of `analyze_sentiment_simple` when at least one
keyword hits. -/
theorem sentiment_formula (text : String)
    (h : MlScoring.positive_count (lowerStr text) +
      MlScoring.negative_count (lowerStr text) ≠ 0) :
    MlScoring.analyze_sentiment_simple text =
      min 1 (max 0 ((MlScoring.positive_count (lowerStr text) : ℚ) /
        ((MlScoring.positive_count (lowerStr text) : ℚ) +
          (MlScoring.negative_count (lowerStr text) : ℚ)) * 1.2)) := by
  have hne : text ≠ "" := by
    intro he
    subst he
    revert h
    decide
  unfold MlScoring.analyze_sentiment_simple
  rw [if_neg hne]
  show (if MlScoring.positive_count (lowerStr text) +
        MlScoring.negative_count (lowerStr text) = 0 then (0.5 : ℚ)
      else min 1 (max 0 ((MlScoring.positive_count (lowerStr text) : ℚ) /
        ((MlScoring.positive_count (lowerStr text) : ℚ) +
          (MlScoring.negative_count (lowerStr text) : ℚ)) * 1.2))) = _
  rw [if_neg h]

/-- Helper: the value of `analyze_sentiment_simple` when no keyword hits. -/
theorem sentiment_neutral (text : String) (hne : text ≠ "")
    (hz : MlScoring.positive_count (lowerStr text) +
      MlScoring.negative_count (lowerStr text) = 0) :
    MlScoring.analyze_sentiment_simple text = 0.5 := by
  unfold MlScoring.analyze_sentiment_simple
  rw [if_neg hne]
  show (if MlScoring.positive_count (lowerStr text) +
        MlScoring.negative_count (lowerStr text) = 0 then (0.5 : ℚ)
      else min 1 (max 0 ((MlScoring.positive_count (lowerStr text) : ℚ) /
        ((MlScoring.positive_count (lowerStr text) : ℚ) +
          (MlScoring.negative_count (lowerStr text) : ℚ)) * 1.2))) = _
  rw [if_pos hz]

/-- C10: `analyze_sentiment_simple` returns 0.5 for empty text and for text
with no positive/negative keyword hit; otherwise it returns
`min 1 (max 0 (positive/(positive+negative) * 1.2))`, which is 1 when only
positive keywords hit and 0 when only negative keywords hit. -/
theorem C10_sentiment_values :
    (MlScoring.analyze_sentiment_simple "" = 0.5) ∧
    (∀ text, MlScoring.positive_count (lowerStr text) = 0 →
      MlScoring.negative_count (lowerStr text) = 0 →
      MlScoring.analyze_sentiment_simple text = 0.5) ∧
    (∀ text, MlScoring.positive_count (lowerStr text) +
        MlScoring.negative_count (lowerStr text) ≠ 0 →
      MlScoring.analyze_sentiment_simple text =
        min 1 (max 0 ((MlScoring.positive_count (lowerStr text) : ℚ) /
          ((MlScoring.positive_count (lowerStr text) : ℚ) +
            (MlScoring.negative_count (lowerStr text) : ℚ)) * 1.2))) ∧
    (∀ text, 0 < MlScoring.positive_count (lowerStr text) →
      MlScoring.negative_count (lowerStr text) = 0 →
      MlScoring.analyze_sentiment_simple text = 1) ∧
    (∀ text, MlScoring.positive_count (lowerStr text) = 0 →
      0 < MlScoring.negative_count (lowerStr text) →
      MlScoring.analyze_sentiment_simple text = 0) := by
  refine ⟨?_, ?_, fun text h => sentiment_formula text h, ?_, ?_⟩
  · unfold MlScoring.analyze_sentiment_simple
    rw [if_pos rfl]
  · intro text hp hn
    by_cases he : text = ""
    · subst he
      unfold MlScoring.analyze_sentiment_simple
      rw [if_pos rfl]
    · exact sentiment_neutral text he (by omega)
  · intro text hp hn
    rw [sentiment_formula text (by omega), hn]
    have hp' : ((MlScoring.positive_count (lowerStr text) : ℚ)) ≠ 0 := by
      exact_mod_cast Nat.pos_iff_ne_zero.mp hp
    push_cast
    rw [add_zero, div_self hp']
    norm_num [min_def, max_def]
  · intro text hp hn
    rw [sentiment_formula text (by omega), hp]
    push_cast
    rw [zero_div, zero_mul]
    norm_num [min_def, max_def]

/-- C10 witness: a purely positive review scores 1, a purely negative review
scores 0, and a keyword-free review scores 0.5. -/
theorem C10_sentiment_values_witness :
    MlScoring.analyze_sentiment_simple "Great and professional work" = 1 ∧
    MlScoring.analyze_sentiment_simple "Terrible, always delayed" = 0 ∧
    MlScoring.analyze_sentiment_simple "Installed panels on my roof" = 0.5 :=
  ⟨C10_sentiment_values.2.2.2.1 "Great and professional work" (by decide) (by decide),
   C10_sentiment_values.2.2.2.2 "Terrible, always delayed" (by decide) (by decide),
   C10_sentiment_values.2.1 "Installed panels on my roof" (by decide) (by decide)⟩

/-! ### Evaluation lemmas for `pyRound1` and the vendor pipeline -/

theorem pyRoundInt_eq_floor {q : ℚ} {f : ℤ} (h1 : (f:ℚ) ≤ q) (h2 : q - (f:ℚ) < 1/2) :
    pyRoundInt q = f := by
  have hfl : ⌊q⌋ = f := Int.floor_eq_iff.mpr ⟨h1, by linarith⟩
  unfold pyRoundInt
  dsimp only
  rw [hfl, if_pos h2]

theorem pyRoundInt_eq_ceil {q : ℚ} {f : ℤ} (h2 : 1/2 < q - (f:ℚ)) (h3 : q < (f:ℚ) + 1) :
    pyRoundInt q = f + 1 := by
  have h1 : (f:ℚ) ≤ q := by linarith
  have hfl : ⌊q⌋ = f := Int.floor_eq_iff.mpr ⟨h1, by linarith⟩
  unfold pyRoundInt
  dsimp only
  rw [hfl, if_neg (by linarith), if_pos h2]

theorem pyRoundInt_eq_half_even {q : ℚ} {f : ℤ} (h2 : q - (f:ℚ) = 1/2) (he : f % 2 = 0) :
    pyRoundInt q = f := by
  have hfl : ⌊q⌋ = f := Int.floor_eq_iff.mpr ⟨by linarith, by linarith⟩
  unfold pyRoundInt
  dsimp only
  rw [hfl, if_neg (by rw [h2]; norm_num), if_neg (by rw [h2]; norm_num), if_pos he]

theorem pyRound1_eval_lo {q : ℚ} {f : ℤ} (h1 : (f:ℚ) ≤ q * 10) (h2 : q * 10 - (f:ℚ) < 1/2) :
    pyRound1 q = (f:ℚ)/10 := by
  unfold pyRound1
  rw [pyRoundInt_eq_floor h1 h2]

theorem pyRound1_eval_hi {q : ℚ} {f : ℤ} (h2 : 1/2 < q * 10 - (f:ℚ)) (h3 : q * 10 < (f:ℚ) + 1) :
    pyRound1 q = ((f:ℚ) + 1)/10 := by
  unfold pyRound1
  rw [pyRoundInt_eq_ceil h2 h3]
  push_cast
  ring

theorem pyRound1_eval_half_even {q : ℚ} {f : ℤ} (h2 : q * 10 - (f:ℚ) = 1/2) (he : f % 2 = 0) :
    pyRound1 q = (f:ℚ)/10 := by
  unfold pyRound1
  rw [pyRoundInt_eq_half_even h2 he]

/-- Helper: closed form of the clamped, rounded ml vendor score. -/
theorem ml_vendor_score_eval {rating : ℚ} {mnre : Bool} {snt pf cr w : ℚ} {y : ℤ} {r : ℚ}
    (hr : pyRound1 ((snt * 40 + (if mnre then (20:ℚ) else 0) + pf * 15 + cr * 15 +
        min 10 (max 2 (w * 2)) + min 5 ((y:ℚ)/2)) * 0.9 + rating/5*10) = r)
    (h0 : 0 ≤ r) (h100 : r ≤ 100) :
    MlScoring.calculate_vendor_score rating mnre snt pf cr w y = r := by
  unfold MlScoring.calculate_vendor_score
  show min 100 (max 0 (pyRound1 ((snt * 40 + (if mnre then (20:ℚ) else 0) + pf * 15 +
      cr * 15 + min 10 (max 2 (w * 2)) + min 5 ((y:ℚ)/2)) * 0.9 + rating/5*10))) = r
  rw [hr, max_eq_right h0, min_eq_right h100]

theorem vendors_score_nonneg (v : Vendors.Vendor) : 0 ≤ Vendors.calculate_vendor_score v := by
  unfold Vendors.calculate_vendor_score
  exact (vendor_score_range _ _ _ _ _ _ _).1

theorem max_price_eval :
    Vendors.pyMax (Vendors.solar_vendors.map fun v => v.base_price_per_kw_inr) 80000 = 68000 := by
  simp only [Vendors.solar_vendors, Vendors.sunrise_energy, Vendors.surya_grid,
    Vendors.greenbeam, Vendors.agripower, Vendors.urban_spark, List.map]
  norm_num [Vendors.pyMax, List.foldl, max_def]

theorem min_price_eval :
    Vendors.pyMin (Vendors.solar_vendors.map fun v => v.base_price_per_kw_inr) 50000 = 59000 := by
  simp only [Vendors.solar_vendors, Vendors.sunrise_energy, Vendors.surya_grid,
    Vendors.greenbeam, Vendors.agripower, Vendors.urban_spark, List.map]
  norm_num [Vendors.pyMin, List.foldl, min_def]

/-- Helper: a highlight without ("year" and a digit) leaves the warranty
scan unchanged. -/
theorem extract_warranty_skip (h : String) (rest : List String) (w : ℚ)
    (hc : ¬(strIn "year" (lowerStr h) ∧ (h.toList.any fun c => c.isDigit) = true)) :
    Vendors.extract_warranty (h :: rest) w = Vendors.extract_warranty rest w := by
  show (if strIn "year" (lowerStr h) ∧ (h.toList.any fun c => c.isDigit) = true
      then (((Vendors.splitWs h).filter Vendors.isDigitTok).head?).elim
        (Vendors.extract_warranty rest w) (fun tok => (Vendors.natOfDigits tok : ℚ))
      else Vendors.extract_warranty rest w) = Vendors.extract_warranty rest w
  rw [if_neg hc]

/-- Helper: a highlight with "year" and a digit but no all-digit token hits
the swallowed `IndexError` and the scan continues. -/
theorem extract_warranty_nofloat (h : String) (rest : List String) (w : ℚ)
    (hc : strIn "year" (lowerStr h) ∧ (h.toList.any fun c => c.isDigit) = true)
    (hf : (Vendors.splitWs h).filter Vendors.isDigitTok = []) :
    Vendors.extract_warranty (h :: rest) w = Vendors.extract_warranty rest w := by
  show (if strIn "year" (lowerStr h) ∧ (h.toList.any fun c => c.isDigit) = true
      then (((Vendors.splitWs h).filter Vendors.isDigitTok).head?).elim
        (Vendors.extract_warranty rest w) (fun tok => (Vendors.natOfDigits tok : ℚ))
      else Vendors.extract_warranty rest w) = Vendors.extract_warranty rest w
  rw [if_pos hc, hf]
  rfl

theorem warranty_sunrise : Vendors.warranty_years Vendors.sunrise_energy = 5 := by
  unfold Vendors.warranty_years
  rw [show Vendors.sunrise_energy.highlights =
    ["MNRE empanelled", "Net-meter support", "24x7 monitoring"] from rfl]
  rw [extract_warranty_skip _ _ _ (by decide), extract_warranty_skip _ _ _ (by decide),
    extract_warranty_skip _ _ _ (by decide)]
  rfl

theorem warranty_surya : Vendors.warranty_years Vendors.surya_grid = 5 := by
  unfold Vendors.warranty_years
  rw [show Vendors.surya_grid.highlights =
    ["Hybrid inverter experts", "O&M packages", "Battery integration"] from rfl]
  rw [extract_warranty_skip _ _ _ (by decide), extract_warranty_skip _ _ _ (by decide),
    extract_warranty_skip _ _ _ (by decide)]
  rfl

theorem warranty_greenbeam : Vendors.warranty_years Vendors.greenbeam = 5 := by
  unfold Vendors.warranty_years
  rw [show Vendors.greenbeam.highlights =
    ["5-year O&M included", "Real-time app", "EMI options"] from rfl]
  rw [extract_warranty_nofloat _ _ _ (by decide) (by decide),
    extract_warranty_skip _ _ _ (by decide), extract_warranty_skip _ _ _ (by decide)]
  rfl

theorem warranty_agripower : Vendors.warranty_years Vendors.agripower = 5 := by
  unfold Vendors.warranty_years
  rw [show Vendors.agripower.highlights =
    ["PM-KUSUM specialists", "RBI/NABARD loan support", "On-field service"] from rfl]
  rw [extract_warranty_skip _ _ _ (by decide), extract_warranty_skip _ _ _ (by decide),
    extract_warranty_skip _ _ _ (by decide)]
  rfl

theorem warranty_urban : Vendors.warranty_years Vendors.urban_spark = 5 := by
  unfold Vendors.warranty_years
  rw [show Vendors.urban_spark.highlights =
    ["Remote diagnostics", "Smart EV-ready", "Rapid installation"] from rfl]
  rw [extract_warranty_skip _ _ _ (by decide), extract_warranty_skip _ _ _ (by decide),
    extract_warranty_skip _ _ _ (by decide)]
  rfl

theorem score_sunrise : Vendors.calculate_vendor_score Vendors.sunrise_energy = 707/10 := by
  simp only [Vendors.calculate_vendor_score]
  rw [max_price_eval, min_price_eval, warranty_sunrise,
    sentiment_neutral ⟨Vendors.joinSpace Vendors.sunrise_energy.highlights⟩ (by decide) (by decide),
    (show Vendors.mnre_verified Vendors.sunrise_energy = true from by decide)]
  apply ml_vendor_score_eval ?_ (by norm_num) (by norm_num)
  rw [pyRound1_eval_hi (f := 706)
    (by norm_num [Vendors.sunrise_energy, min_def, max_def])
    (by norm_num [Vendors.sunrise_energy, min_def, max_def])]
  norm_num

theorem score_surya : Vendors.calculate_vendor_score Vendors.surya_grid = 311/5 := by
  simp only [Vendors.calculate_vendor_score]
  rw [max_price_eval, min_price_eval, warranty_surya,
    sentiment_neutral ⟨Vendors.joinSpace Vendors.surya_grid.highlights⟩ (by decide) (by decide),
    (show Vendors.mnre_verified Vendors.surya_grid = false from by decide)]
  apply ml_vendor_score_eval ?_ (by norm_num) (by norm_num)
  rw [pyRound1_eval_lo (f := 622)
    (by norm_num [Vendors.surya_grid, min_def, max_def])
    (by norm_num [Vendors.surya_grid, min_def, max_def])]
  norm_num

theorem score_greenbeam : Vendors.calculate_vendor_score Vendors.greenbeam = 271/5 := by
  simp only [Vendors.calculate_vendor_score]
  rw [max_price_eval, min_price_eval, warranty_greenbeam,
    sentiment_neutral ⟨Vendors.joinSpace Vendors.greenbeam.highlights⟩ (by decide) (by decide),
    (show Vendors.mnre_verified Vendors.greenbeam = false from by decide)]
  apply ml_vendor_score_eval ?_ (by norm_num) (by norm_num)
  rw [pyRound1_eval_lo (f := 542)
    (by norm_num [Vendors.greenbeam, min_def, max_def])
    (by norm_num [Vendors.greenbeam, min_def, max_def])]
  norm_num

theorem score_agripower : Vendors.calculate_vendor_score Vendors.agripower = 286/5 := by
  simp only [Vendors.calculate_vendor_score]
  rw [max_price_eval, min_price_eval, warranty_agripower,
    sentiment_neutral ⟨Vendors.joinSpace Vendors.agripower.highlights⟩ (by decide) (by decide),
    (show Vendors.mnre_verified Vendors.agripower = false from by decide)]
  apply ml_vendor_score_eval ?_ (by norm_num) (by norm_num)
  rw [pyRound1_eval_lo (f := 572)
    (by norm_num [Vendors.agripower, min_def, max_def])
    (by norm_num [Vendors.agripower, min_def, max_def])]
  norm_num

theorem score_urban : Vendors.calculate_vendor_score Vendors.urban_spark = 326/5 := by
  simp only [Vendors.calculate_vendor_score]
  rw [max_price_eval, min_price_eval, warranty_urban,
    sentiment_neutral ⟨Vendors.joinSpace Vendors.urban_spark.highlights⟩ (by decide) (by decide),
    (show Vendors.mnre_verified Vendors.urban_spark = false from by decide)]
  apply ml_vendor_score_eval ?_ (by norm_num) (by norm_num)
  rw [pyRound1_eval_half_even (f := 652)
    (by norm_num [Vendors.urban_spark, min_def, max_def]) (by decide)]
  norm_num

theorem vendors_with_scores_eval :
    Vendors.vendors_with_scores =
      [(Vendors.sunrise_energy, 707/10), (Vendors.surya_grid, 311/5),
       (Vendors.greenbeam, 271/5), (Vendors.agripower, 286/5),
       (Vendors.urban_spark, 326/5)] := by
  unfold Vendors.vendors_with_scores Vendors.solar_vendors
  simp [List.map, score_sunrise, score_surya, score_greenbeam, score_agripower, score_urban]

theorem sorted_vendors_eval :
    Vendors.sorted_vendors =
      [(Vendors.sunrise_energy, 707/10), (Vendors.urban_spark, 326/5),
       (Vendors.surya_grid, 311/5), (Vendors.agripower, 286/5),
       (Vendors.greenbeam, 271/5)] := by
  unfold Vendors.sorted_vendors
  rw [vendors_with_scores_eval]
  norm_num [List.insertionSort, List.orderedInsert, Vendors.scoreGe]

theorem top_score_eval : Vendors.top_score = 707/10 := by
  unfold Vendors.top_score
  rw [sorted_vendors_eval]

theorem get_recommended_vendors_eval :
    Vendors.get_recommended_vendors =
      [{ vendor := Vendors.sunrise_energy, recommendation_score := 707/10, is_recommended := true },
       { vendor := Vendors.urban_spark, recommendation_score := 326/5, is_recommended := true },
       { vendor := Vendors.surya_grid, recommendation_score := 311/5, is_recommended := true },
       { vendor := Vendors.agripower, recommendation_score := 286/5, is_recommended := false },
       { vendor := Vendors.greenbeam, recommendation_score := 271/5, is_recommended := false }] := by
  unfold Vendors.get_recommended_vendors
  rw [sorted_vendors_eval, top_score_eval]
  norm_num [List.map, Vendors.ScoredVendor.mk.injEq, decide_eq_true_eq,
    decide_eq_false_iff_not]

theorem sorted_vendors_perm : List.Perm Vendors.sorted_vendors Vendors.vendors_with_scores :=
  List.perm_insertionSort _ _

theorem sorted_vendors_sorted : List.Sorted Vendors.scoreGe Vendors.sorted_vendors :=
  List.sorted_insertionSort _ _

theorem score_nonneg_of_mem_vws {p : Vendors.Vendor × ℚ}
    (hp : p ∈ Vendors.vendors_with_scores) : 0 ≤ p.2 := by
  unfold Vendors.vendors_with_scores at hp
  rcases List.mem_map.mp hp with ⟨v, _, rfl⟩
  exact vendors_score_nonneg v

/-- C4: in the list returned by `get_recommended_vendors`, the head score is
the maximum, every vendor carrying the maximal score is flagged
`is_recommended = true`, and every vendor scoring strictly below 85% of the
top score is not flagged. -/
theorem C4_vendor_flagging (top : ℚ)
    (htop : (Vendors.get_recommended_vendors.map
      (fun sv => sv.recommendation_score)).head? = some top) :
    (∀ sv ∈ Vendors.get_recommended_vendors, sv.recommendation_score ≤ top) ∧
    (∀ sv ∈ Vendors.get_recommended_vendors,
      (∀ y ∈ Vendors.get_recommended_vendors,
        y.recommendation_score ≤ sv.recommendation_score) →
      sv.is_recommended = true) ∧
    (∀ sv ∈ Vendors.get_recommended_vendors,
      sv.recommendation_score < top * 0.85 → sv.is_recommended = false) := by
  cases hS : Vendors.sorted_vendors with
  | nil =>
      exfalso
      unfold Vendors.get_recommended_vendors at htop
      rw [hS] at htop
      simp at htop
  | cons x xs =>
      have hx_mem : x ∈ Vendors.sorted_vendors := by
        rw [hS]
        exact List.mem_cons_self x xs
      have hx_nonneg : 0 ≤ x.2 :=
        score_nonneg_of_mem_vws (sorted_vendors_perm.mem_iff.mp hx_mem)
      have htop_def : Vendors.top_score = x.2 := by
        unfold Vendors.top_score
        rw [hS]
      have htop_eq : top = x.2 := by
        unfold Vendors.get_recommended_vendors at htop
        rw [hS] at htop
        simp at htop
        exact htop.symm
      have hmax : ∀ p ∈ Vendors.sorted_vendors, p.2 ≤ x.2 := by
        intro p hp
        rw [hS] at hp
        rcases List.mem_cons.mp hp with h | h
        · rw [h]
        · have hs := sorted_vendors_sorted
          rw [hS] at hs
          exact (List.pairwise_cons.mp hs).1 p h
      refine ⟨?_, ?_, ?_⟩
      · intro sv hsv
        unfold Vendors.get_recommended_vendors at hsv
        rcases List.mem_map.mp hsv with ⟨p, hp, rfl⟩
        rw [htop_eq]
        exact hmax p hp
      · intro sv hsv hall
        unfold Vendors.get_recommended_vendors at hsv
        rcases List.mem_map.mp hsv with ⟨p, hp, rfl⟩
        have hxmem : Vendors.ScoredVendor.mk x.1 x.2
            (decide (x.2 ≥ Vendors.top_score * 0.85)) ∈ Vendors.get_recommended_vendors := by
          unfold Vendors.get_recommended_vendors
          exact List.mem_map.mpr ⟨x, hx_mem, rfl⟩
        have hge : x.2 ≤ p.2 := hall _ hxmem
        show decide (p.2 ≥ Vendors.top_score * 0.85) = true
        rw [decide_eq_true_eq, htop_def]
        nlinarith [hx_nonneg, hge]
      · intro sv hsv hlt
        unfold Vendors.get_recommended_vendors at hsv
        rcases List.mem_map.mp hsv with ⟨p, hp, rfl⟩
        have hlt' : p.2 < top * 0.85 := hlt
        rw [htop_eq] at hlt'
        show decide (p.2 ≥ Vendors.top_score * 0.85) = false
        rw [decide_eq_false_iff_not, htop_def]
        intro hge
        nlinarith [hge, hlt']

/-- C4 witness: on the concrete vendor table, Sunrise Energy (the maximal
score, 70.7) is flagged and AgriPower (57.2 < 85% of 70.7) is not. -/
theorem C4_vendor_flagging_witness :
    ({ vendor := Vendors.sunrise_energy, recommendation_score := 707/10,
       is_recommended := true } : Vendors.ScoredVendor).is_recommended = true ∧
    ({ vendor := Vendors.agripower, recommendation_score := 286/5,
       is_recommended := false } : Vendors.ScoredVendor).is_recommended = false := by
  have htop : (Vendors.get_recommended_vendors.map
      (fun sv => sv.recommendation_score)).head? = some (707/10) := by
    rw [get_recommended_vendors_eval]
    rfl
  constructor
  · refine (C4_vendor_flagging (707/10) htop).2.1 _ ?_ ?_
    · rw [get_recommended_vendors_eval]
      simp
    · intro y hy
      rw [get_recommended_vendors_eval] at hy
      simp only [List.mem_cons, List.not_mem_nil, or_false] at hy
      rcases hy with rfl | rfl | rfl | rfl | rfl <;> norm_num
  · refine (C4_vendor_flagging (707/10) htop).2.2 _ ?_ ?_
    · rw [get_recommended_vendors_eval]
      simp
    · norm_num

end Solaris
